import Mathlib

/-!
Shallow embedding of the message-correlation and routing engine of the
Telegram translator service (`TranslatorService` in
`src/translator/translator.service.ts`, plus its configuration loading).

Modelling conventions:
* JavaScript numbers used as identifiers become `Int`; `NaN` results of
  `parseInt` become `none : Option Int`.
* JavaScript truthiness is made explicit: a string is truthy iff non-empty,
  a number is truthy iff non-zero, `undefined` is `none`.
* The two external gateways (OpenAI translation, Telegram messaging) are an
  explicit environment `Env` of deterministic functions returning `Except`;
  a thrown exception is the `.error` case.  Every gateway invocation made by
  the code is recorded in an output trace of `Call`s, whether or not it
  succeeds.
* The in-memory `Map`s become association lists where the most recent
  `set` is the head, so `List.lookup` has JavaScript `Map.get` semantics.
-/

/-- A media payload attached to a message; `payload` is an abstract identity,
`isPhoto` mirrors `message.media.photo !== undefined`. -/
structure Media where
  payload : Nat
  isPhoto : Bool
  deriving DecidableEq, Repr

/-- An inbound Telegram message event as the service reads it: numeric id,
text (`""` models both the empty string and `undefined`), optional media,
optional album group id, optional reply-to source message id. -/
structure Message where
  id : Int
  text : String
  media : Option Media
  groupedId : Option String
  replyToMsgId : Option Int
  deriving DecidableEq, Repr

/-- JavaScript truthiness of an optional string (`undefined` and `""` are falsy). -/
def jsTruthyStr (o : Option String) : Bool :=
  match o with
  | some s => s ≠ ""
  | none => false

/-- JavaScript truthiness of an optional number (`undefined` and `0` are falsy). -/
def jsTruthyInt (o : Option Int) : Bool :=
  match o with
  | some x => x ≠ 0
  | none => false

/-- JavaScript `a || b` on optional numbers: `b` when `a` is falsy. -/
def jsOrOpt (a b : Option Int) : Option Int :=
  if jsTruthyInt a then a else b

/-- The `messageMapping : Map<number, number>` store; head entry is the most
recent `set`, so lookup returns the latest value for a key. -/
abbrev MsgMap := List (Int × Int)

/-- `Map.set` — the new pair shadows any older entry for the same key. -/
def mapSet (st : MsgMap) (k v : Int) : MsgMap := (k, v) :: st

/-- `Map.get` — `none` models `undefined`. -/
def mapGet (st : MsgMap) (k : Int) : Option Int := st.lookup k

/-- One gateway invocation, as recorded in a handler's trace. -/
inductive Call where
  | translateCall (text : String) (prompt : Option String)
  | sendCall (chatId : Int) (text : String) (files : List Media) (replyTo : Option Int)
  | editCall (chatId : Int) (messageId : Int) (text : String)
  deriving DecidableEq, Repr

/-- Whether a recorded call is a message send. -/
def Call.isSend : Call → Bool
  | .sendCall _ _ _ _ => true
  | _ => false

/-- Number of destination posts (send invocations) in a trace. -/
def sendCount (calls : List Call) : Nat := (calls.filter Call.isSend).length

/-- The external gateways: `translate` is `OpenAIService.translateToKorean`
(second argument is the per-channel prompt, `none` when the field was
`undefined`), `send` is the Telegram client's `sendMessage` returning the sent
message's id.  `.error` models a thrown/rejected call. -/
structure Env where
  translate : String → Option String → Except Unit String
  send : Int → String → List Media → Option Int → Except Unit Int

/-- One per-source route, as built by `parseChannelConfiguration`:
`parseInt` results that are `NaN` are `none`, and `prompt` is the raw
`prompts[promptKey]` lookup (possibly `undefined`). -/
structure ChannelConfig where
  sourceId : Option Int
  targetTopicId : Option Int
  promptKey : String
  prompt : Option String
  deriving DecidableEq, Repr

/-- The `if (replyToMsgId) targetReplyToMsgId = messageMapping.get(replyToMsgId)`
step: the reply reference is consulted only when truthy, and an absent mapping
yields `none` (undefined). -/
def replyLookup (st : MsgMap) (r : Option Int) : Option Int :=
  match r with
  | some x => if x ≠ 0 then mapGet st x else none
  | none => none

/-- Whether `handleNewMessageMulti` routes a message to the album aggregator:
`(message as any).groupedId?.toString()` is truthy. -/
def messageIsGrouped (msg : Message) : Bool := jsTruthyStr msg.groupedId

/-- `TranslatorService.processSingleMessageMulti`.  Returns the updated
`messageMapping` and the trace of gateway invocations.  The outer
`try/catch` makes the handler total: a propagating gateway error ends the
unit with the store unchanged.  The photo branch's inner `try/catch`
swallows a send failure (`sentMessage` stays undefined). -/
def processSingleMessageMulti (env : Env) (targetGroupId : Int)
    (cfg : ChannelConfig) (st : MsgMap) (msg : Message) : MsgMap × List Call :=
  let messageText := msg.text
  let hasMedia := msg.media.isSome
  let isPhoto := match msg.media with
    | some m => m.isPhoto
    | none => false
  if hasMedia = false ∧ messageText = "" then (st, [])
  else
    let targetReplyToMsgId := replyLookup st msg.replyToMsgId
    let trStep : Except (List Call) (String × List Call) :=
      if messageText = "" then .ok ("", [])
      else
        match env.translate messageText cfg.prompt with
        | .ok t => .ok (t, [Call.translateCall messageText cfg.prompt])
        | .error _ => .error [Call.translateCall messageText cfg.prompt]
    match trStep with
    | .error calls => (st, calls)
    | .ok (translatedText, calls1) =>
      let replyTo := jsOrOpt targetReplyToMsgId cfg.targetTopicId
      let sendStep : Except (List Call) (Option Int × List Call) :=
        if isPhoto then
          match msg.media with
          | some m =>
            match env.send targetGroupId translatedText [m] replyTo with
            | .ok i => .ok (some i, [Call.sendCall targetGroupId translatedText [m] replyTo])
            | .error _ => .ok (none, [Call.sendCall targetGroupId translatedText [m] replyTo])
          | none => .ok (none, [])
        else if hasMedia then
          match msg.media with
          | some m =>
            match env.send targetGroupId translatedText [m] replyTo with
            | .ok i => .ok (some i, [Call.sendCall targetGroupId translatedText [m] replyTo])
            | .error _ => .error [Call.sendCall targetGroupId translatedText [m] replyTo]
          | none => .ok (none, [])
        else
          match env.send targetGroupId translatedText [] replyTo with
          | .ok i => .ok (some i, [Call.sendCall targetGroupId translatedText [] replyTo])
          | .error _ => .error [Call.sendCall targetGroupId translatedText [] replyTo]
      match sendStep with
      | .error calls2 => (st, calls1 ++ calls2)
      | .ok (sentId, calls2) =>
        match sentId with
        | some i =>
          if i ≠ 0 then (mapSet st msg.id i, calls1 ++ calls2)
          else (st, calls1 ++ calls2)
        | none => (st, calls1 ++ calls2)

/-- `TranslatorService.processSingleMessage` (legacy single-channel mode):
prompt-less translation, destination is the flat target channel, the reply-to
is the resolved mapping or absent (no topic fallback), and the photo branch
retries `sendMessageWithMedia` once after a failure before propagating. -/
def processSingleMessage (env : Env) (targetChannelId : Int)
    (st : MsgMap) (msg : Message) : MsgMap × List Call :=
  let messageText := msg.text
  let hasMedia := msg.media.isSome
  let isPhoto := match msg.media with
    | some m => m.isPhoto
    | none => false
  if hasMedia = false ∧ messageText = "" then (st, [])
  else
    let targetReplyToMsgId := replyLookup st msg.replyToMsgId
    let trStep : Except (List Call) (String × List Call) :=
      if messageText = "" then .ok ("", [])
      else
        match env.translate messageText none with
        | .ok t => .ok (t, [Call.translateCall messageText none])
        | .error _ => .error [Call.translateCall messageText none]
    match trStep with
    | .error calls => (st, calls)
    | .ok (translatedText, calls1) =>
      let sendStep : Except (List Call) (Option Int × List Call) :=
        if isPhoto then
          match msg.media with
          | some m =>
            match env.send targetChannelId translatedText [m] targetReplyToMsgId with
            | .ok i => .ok (some i, [Call.sendCall targetChannelId translatedText [m] targetReplyToMsgId])
            | .error _ =>
              match env.send targetChannelId translatedText [m] targetReplyToMsgId with
              | .ok i => .ok (some i,
                  [Call.sendCall targetChannelId translatedText [m] targetReplyToMsgId,
                   Call.sendCall targetChannelId translatedText [m] targetReplyToMsgId])
              | .error _ => .error
                  [Call.sendCall targetChannelId translatedText [m] targetReplyToMsgId,
                   Call.sendCall targetChannelId translatedText [m] targetReplyToMsgId]
          | none => .ok (none, [])
        else if hasMedia then
          match msg.media with
          | some m =>
            match env.send targetChannelId translatedText [m] targetReplyToMsgId with
            | .ok i => .ok (some i, [Call.sendCall targetChannelId translatedText [m] targetReplyToMsgId])
            | .error _ => .error [Call.sendCall targetChannelId translatedText [m] targetReplyToMsgId]
          | none => .ok (none, [])
        else
          match env.send targetChannelId translatedText [] targetReplyToMsgId with
          | .ok i => .ok (some i, [Call.sendCall targetChannelId translatedText [] targetReplyToMsgId])
          | .error _ => .error [Call.sendCall targetChannelId translatedText [] targetReplyToMsgId]
      match sendStep with
      | .error calls2 => (st, calls1 ++ calls2)
      | .ok (sentId, calls2) =>
        match sentId with
        | some i =>
          if i ≠ 0 then (mapSet st msg.id i, calls1 ++ calls2)
          else (st, calls1 ++ calls2)
        | none => (st, calls1 ++ calls2)

/-- Text the group flush selects: the text of the first member that has any,
or empty. -/
def groupText (msgs : List Message) : String :=
  ((msgs.find? fun m => m.text ≠ "").map Message.text).getD ""

/-- Gateway invocations of `TranslatorService.processGroupedMessagesMulti`:
text of the first member with text, translated when non-empty; media of all
members in arrival order; one `sendMessage` to the target group with
`replyTo` the route's topic.  A translation failure hits the `catch` before
any send. -/
def groupFlushCalls (env : Env) (targetGroupId : Int) (cfg : ChannelConfig)
    (msgs : List Message) : List Call :=
  let messageText := groupText msgs
  let mediaFiles := msgs.filterMap Message.media
  if messageText = "" then
    [Call.sendCall targetGroupId "" mediaFiles cfg.targetTopicId]
  else
    Call.translateCall messageText cfg.prompt ::
      match env.translate messageText cfg.prompt with
      | .error _ => []
      | .ok t => [Call.sendCall targetGroupId t mediaFiles cfg.targetTopicId]

/-- `TranslatorService.processGroupedMessagesMulti` with the correlation store
threaded through: the function body never touches `messageMapping`, so the
store is returned unchanged alongside the trace. -/
def processGroupedMessagesMulti (env : Env) (targetGroupId : Int)
    (cfg : ChannelConfig) (st : MsgMap) (msgs : List Message) : MsgMap × List Call :=
  (st, groupFlushCalls env targetGroupId cfg msgs)

/-- `TranslatorService.handleEditedMessageMulti`: drop when the mapping is
absent (or falsy), otherwise re-translate with the per-channel prompt and
issue one edit against the mapped destination id.  The store is never
written; only the trace is returned. -/
def handleEditedMessageMulti (env : Env) (targetGroupId : Int)
    (cfg : ChannelConfig) (st : MsgMap) (msg : Message) : List Call :=
  match mapGet st msg.id with
  | none => []
  | some d =>
    if d = 0 then []
    else
      if msg.text = "" then [Call.editCall targetGroupId d ""]
      else
        Call.translateCall msg.text cfg.prompt ::
          match env.translate msg.text cfg.prompt with
          | .error _ => []
          | .ok t => [Call.editCall targetGroupId d t]

/-- `TranslatorService.handleEditedMessage` (legacy): as the multi variant but
prompt-less and editing in the flat target channel. -/
def handleEditedMessage (env : Env) (targetChannelId : Int)
    (st : MsgMap) (msg : Message) : List Call :=
  match mapGet st msg.id with
  | none => []
  | some d =>
    if d = 0 then []
    else
      if msg.text = "" then [Call.editCall targetChannelId d ""]
      else
        Call.translateCall msg.text none ::
          match env.translate msg.text none with
          | .error _ => []
          | .ok t => [Call.editCall targetChannelId d t]

/-- JavaScript `parseInt(s)` restricted to base 10: skip surrounding
whitespace, optional sign, then the longest leading digit run; no digits is
`NaN`, modelled as `none`. -/
def parseIntJs (s : String) : Option Int :=
  let cs := s.trim.toList
  let core : List Char → Option Int := fun l =>
    let ds := l.takeWhile Char.isDigit
    if ds = [] then none
    else some (Int.ofNat (ds.foldl (fun acc c => 10 * acc + (c.toNat - 48)) 0))
  match cs with
  | '-' :: rest => (core rest).map (fun n => -n)
  | '+' :: rest => core rest
  | _ => core cs

/-- The prompt catalog `prompts : Record<string, string>` as an association
list (JSON object key order). -/
abbrev PromptMap := List (String × String)

/-- `TranslatorService.loadPrompts`: the `prompts.json` read is abstracted as
`none` (file absent), `some (.error ())` (read or JSON parse threw), or
`some (.ok m)` (parsed object); the two failure shapes degrade to the
default-only catalog instead of aborting. -/
def loadPrompts (file : Option (Except Unit PromptMap)) : PromptMap :=
  match file with
  | some (.ok m) => m
  | some (.error _) => [("default", "")]
  | none => [("default", "")]

/-- Modelled from the spec: the prompt-key resolution performed inside
`OpenAIService.translateToKorean` (that service's source is not under
`src/`; §4.2 of the spec): an unknown key returns the catalog's default
entry — the entry under key `"default"`, or empty text if even that is
absent. -/
def promptLookup (catalog : PromptMap) (key : String) : String :=
  match catalog.lookup key with
  | some v => v
  | none =>
    match catalog.lookup "default" with
    | some v => v
    | none => ""

/-- The catalog's default entry as the spec defines it: the `"default"`
entry, or empty text. -/
def defaultEntry (catalog : PromptMap) : String :=
  match catalog.lookup "default" with
  | some v => v
  | none => ""

/-- The raw configuration strings read from the environment
(`undefined` is `none`). -/
structure ParseEnv where
  channelsConfig : Option String
  targetGroupIdStr : Option String
  sourceChannelIdStr : Option String
  targetChannelIdStr : Option String
  deriving DecidableEq, Repr

/-- Outcome of `parseChannelConfiguration`: multi-channel routes, legacy mode
with direct ids, or legacy mode awaiting URL resolution. -/
inductive ParsedConfig where
  | multiChannel (targetGroupId : Option Int) (channels : List ChannelConfig)
  | legacyDirect (sourceChannelId targetChannelId : Option Int)
  | legacyUnresolved
  deriving DecidableEq, Repr

/-- One iteration of the `CHANNELS_CONFIG` entry loop: split on `:`,
destructure the first three fields, skip (`continue`) unless all three are
truthy, otherwise build the `ChannelConfig` with trimmed fields, parsed ids
and the raw prompt lookup. -/
def channelEntryToConfig (prompts : PromptMap) (entry : String) : Option ChannelConfig :=
  let parts := entry.splitOn ":"
  let sourceId := parts.get? 0
  let targetTopicId := parts.get? 1
  let promptKey := parts.get? 2
  if jsTruthyStr sourceId && jsTruthyStr targetTopicId && jsTruthyStr promptKey then
    some { sourceId := parseIntJs ((sourceId.getD "").trim),
           targetTopicId := parseIntJs ((targetTopicId.getD "").trim),
           promptKey := (promptKey.getD "").trim,
           prompt := prompts.lookup ((promptKey.getD "").trim) }
  else none

/-- `TranslatorService.parseChannelConfiguration`: multi-channel mode when
`CHANNELS_CONFIG` is truthy — requiring `TARGET_GROUP_ID` and at least one
valid triple, throwing (`.error`) otherwise; legacy mode when it is not. -/
def parseChannelConfiguration (env : ParseEnv) (prompts : PromptMap) :
    Except String ParsedConfig :=
  if jsTruthyStr env.channelsConfig then
    if jsTruthyStr env.targetGroupIdStr = false then
      .error "TARGET_GROUP_ID is required when using CHANNELS_CONFIG"
    else
      let channels := ((env.channelsConfig.getD "").splitOn ",").filterMap
        (channelEntryToConfig prompts)
      if channels = [] then
        .error "No valid channels configured in CHANNELS_CONFIG"
      else
        .ok (.multiChannel (parseIntJs (env.targetGroupIdStr.getD "")) channels)
  else
    if jsTruthyStr env.sourceChannelIdStr && jsTruthyStr env.targetChannelIdStr then
      .ok (.legacyDirect (parseIntJs (env.sourceChannelIdStr.getD ""))
                         (parseIntJs (env.targetChannelIdStr.getD "")))
    else
      .ok .legacyUnresolved

/-- A `CHANNELS_CONFIG` entry is well formed when its first three `:`-fields
are all present and non-empty — the condition the code's validity check
tests. -/
def entryWellFormed (entry : String) : Bool :=
  let parts := entry.splitOn ":"
  jsTruthyStr (parts.get? 0) && jsTruthyStr (parts.get? 1) && jsTruthyStr (parts.get? 2)

/-- Parameters of the album-aggregation model for one group id:
the gateways, the route, the quiescence window (1000 ms in the code) and
`flushDur`, the elapsed time between a timer firing and the
`groupedMessages.delete` that runs after the awaited flush completes. -/
structure AggCtx where
  env : Env
  targetGroupId : Int
  cfg : ChannelConfig
  window : Nat
  flushDur : Nat

/-- Event-loop state of `handleNewMessageMulti`'s album handling for a single
group id.  JavaScript array identity matters (a timer callback closes over
`groupData.messages` while the map entry may be deleted or recreated), so
arrays live in `heap` and are referenced by index.  `entry` is the
`groupedMessages` entry: its array and its current `timeout` handle.
`timers` are pending `setTimeout`s `(timerId, fireTime, arrayId)`; `dels`
are the pending `groupedMessages.delete` continuations (completion times of
in-flight flushes).  `calls` is the accumulated gateway trace. -/
structure AggState where
  heap : List (List Message)
  entry : Option (Nat × Option Nat)
  timers : List (Nat × Nat × Nat)
  dels : List Nat
  nextTimerId : Nat
  calls : List Call
  deriving DecidableEq, Repr

/-- The state before any message of the group has arrived. -/
def initAgg : AggState :=
  { heap := [], entry := none, timers := [], dels := [], nextTimerId := 0, calls := [] }

/-- An internal event-loop event: a quiescence timer firing (which runs the
flush over its captured array and schedules the delete continuation), or a
delete continuation running. -/
inductive IEv where
  | fire (timerId fireTime arrayId : Nat)
  | del (t : Nat)
  deriving DecidableEq, Repr

/-- Scheduled time of an internal event. -/
def IEv.time : IEv → Nat
  | .fire _ t _ => t
  | .del t => t

/-- Earliest pending timer (leftmost on ties, matching registration order). -/
def minTimer? (l : List (Nat × Nat × Nat)) : Option (Nat × Nat × Nat) :=
  l.foldl (fun acc x =>
    match acc with
    | none => some x
    | some y => if x.2.1 < y.2.1 then some x else some y) none

/-- Earliest pending delete continuation (leftmost on ties). -/
def minDel? (l : List Nat) : Option Nat :=
  l.foldl (fun acc x =>
    match acc with
    | none => some x
    | some y => if x < y then some x else some y) none

/-- The next internal event the event loop would run: the earliest pending
timer or delete continuation; on a time tie the delete (scheduled by an
earlier fire) runs first. -/
def nextInternal (s : AggState) : Option IEv :=
  match minTimer? s.timers, minDel? s.dels with
  | none, none => none
  | some (tid, ft, a), none => some (.fire tid ft a)
  | none, some d => some (.del d)
  | some (tid, ft, a), some d =>
    if d ≤ ft then some (.del d) else some (.fire tid ft a)

/-- Run one internal event.  A fire removes its timer, appends the flush's
gateway calls over the captured array (reads modelled at fire time, i.e. the
schedule on which the flush's synchronous reads and gateway awaits resolve
before the next arrival), and schedules the delete continuation after
`flushDur`.  A delete removes the current map entry, whatever it now is. -/
def execInternal (C : AggCtx) : IEv → AggState → AggState
  | .fire tid ft arrId, s =>
    { s with
      timers := s.timers.filter (fun x => x.1 ≠ tid),
      calls := s.calls ++ groupFlushCalls C.env C.targetGroupId C.cfg (s.heap.getD arrId []),
      dels := s.dels ++ [ft + C.flushDur] }
  | .del t, s =>
    { s with entry := none, dels := s.dels.erase t }

/-- Run pending internal events in event-loop order, while their time is
within `bound` (`none` = run them all); `fuel` bounds the recursion and is
always supplied as `internalFuel`, which suffices because a fire converts to
one delete and a delete vanishes. -/
def runInternal (C : AggCtx) (bound : Option Nat) : Nat → AggState → AggState
  | 0, s => s
  | fuel + 1, s =>
    match nextInternal s with
    | none => s
    | some ev =>
      match bound with
      | some b =>
        if ev.time ≤ b then runInternal C bound fuel (execInternal C ev s) else s
      | none => runInternal C bound fuel (execInternal C ev s)

/-- Sufficient fuel for `runInternal`. -/
def internalFuel (s : AggState) : Nat := 2 * s.timers.length + s.dels.length

/-- Run every internal event due at or before time `t`. -/
def runInternalUntil (C : AggCtx) (t : Nat) (s : AggState) : AggState :=
  runInternal C (some t) (internalFuel s) s

/-- Run all remaining internal events (the quiet period after the last
arrival). -/
def drainAll (C : AggCtx) (s : AggState) : AggState :=
  runInternal C none (internalFuel s) s

/-- The grouped branch of `handleNewMessageMulti` for one arrival at time
`t`: create the entry (with a fresh empty array) if absent, push the message
onto the entry's array, clear the entry's current timeout if any, and arm a
new timer for `t + window` over that same array. -/
def arrive (C : AggCtx) (t : Nat) (m : Message) (s : AggState) : AggState :=
  let p : AggState × Nat :=
    match s.entry with
    | some (a, _) => (s, a)
    | none =>
      ({ s with heap := s.heap ++ [[]], entry := some (s.heap.length, none) },
       s.heap.length)
  let s1 := p.1
  let arrId := p.2
  let s2 := { s1 with heap := s1.heap.set arrId ((s1.heap.getD arrId []) ++ [m]) }
  let tid? : Option Nat :=
    match s2.entry with
    | some (_, x) => x
    | none => none
  let s3 :=
    match tid? with
    | some tid => { s2 with timers := s2.timers.filter (fun x => x.1 ≠ tid) }
    | none => s2
  { s3 with
    timers := s3.timers ++ [(s3.nextTimerId, t + C.window, arrId)],
    entry := some (arrId, some s3.nextTimerId),
    nextTimerId := s3.nextTimerId + 1 }

/-- One inbound arrival as the event loop sees it: first run every internal
event due before (or at) the arrival's time, then run the handler. -/
def stepAgg (C : AggCtx) (s : AggState) (tm : Nat × Message) : AggState :=
  arrive C tm.1 tm.2 (runInternalUntil C tm.1 s)

/-- Process a time-ordered list of arrivals for one group id, then let the
event loop run to quiescence. -/
def runAgg (C : AggCtx) (evs : List (Nat × Message)) : AggState :=
  drainAll C (evs.foldl (stepAgg C) initAgg)

/-- Arrival-time discipline: each arrival comes strictly less than the
quiescence window after the previous one. -/
def gapsOk (C : AggCtx) : Nat → List (Nat × Message) → Prop
  | _, [] => True
  | tl, (t, _) :: rest => t < tl + C.window ∧ gapsOk C t rest

/-- Time of the last arrival (`tl` when none). -/
def lastTime (tl : Nat) (evs : List (Nat × Message)) : Nat :=
  evs.foldl (fun _ e => e.1) tl


/-- The aggregator state while a group is quietly accumulating: one array
holding the members so far, a single armed timer due one window after the
last arrival (`k` timers have been armed and cleared before it), nothing
in flight and nothing posted. -/
def accumState (C : AggCtx) (k tl : Nat) (acc : List Message) : AggState :=
  { heap := [acc], entry := some (0, some k), timers := [(k, tl + C.window, 0)],
    dels := [], nextTimerId := k + 1, calls := [] }

/-- Gateway stub used by concrete witnesses: translation tags its input,
sends return id 777. -/
def envOkA : Env :=
  { translate := fun t _ => .ok (t ++ "|ko"), send := fun _ _ _ _ => .ok 777 }

/-- Gateway stub whose translation always fails. -/
def envFailT : Env :=
  { translate := fun _ _ => .error (), send := fun _ _ _ _ => .ok 777 }

/-- Gateway stub whose sends always fail. -/
def envFailS : Env :=
  { translate := fun t _ => .ok (t ++ "|ko"), send := fun _ _ _ _ => .error () }

/-- Route fixture: source 100 to topic 5 with the `news` prompt. -/
def cfgNews : ChannelConfig :=
  { sourceId := some 100, targetTopicId := some 5, promptKey := "news",
    prompt := some "formal tone" }

/-- A plain text message fixture. -/
def msgText1 : Message :=
  { id := 11, text := "Breaking: markets up", media := none, groupedId := none,
    replyToMsgId := none }

/-- A media-only grouped message fixture. -/
def gMsg (i : Nat) (txt : String) : Message :=
  { id := Int.ofNat i, text := txt, media := some { payload := i, isPhoto := true },
    groupedId := some "g1", replyToMsgId := none }

/-- Aggregation context fixture: window 1000 ms, flush completing 100 ms
after its timer fires. -/
def ctxG : AggCtx :=
  { env := envOkA, targetGroupId := -100, cfg := cfgNews, window := 1000,
    flushDur := 100 }

lemma processSingleMessageMulti_run (env : Env) (gid : Int) (cfg : ChannelConfig)
    (st : MsgMap) (msg : Message) (tt : String) (destId : Int)
    (hskip : msg.media.isSome = true ∨ msg.text ≠ "")
    (htr : msg.text ≠ "" → env.translate msg.text cfg.prompt = .ok tt)
    (htt : msg.text = "" → tt = "")
    (hsend : env.send gid tt msg.media.toList
        (jsOrOpt (replyLookup st msg.replyToMsgId) cfg.targetTopicId) = .ok destId)
    (hid : destId ≠ 0) :
    processSingleMessageMulti env gid cfg st msg =
      (mapSet st msg.id destId,
       (if msg.text = "" then [] else [Call.translateCall msg.text cfg.prompt]) ++
       [Call.sendCall gid tt msg.media.toList
          (jsOrOpt (replyLookup st msg.replyToMsgId) cfg.targetTopicId)]) := by
  rcases hm : msg.media with _ | m
  · have htext : msg.text ≠ "" := by
      rcases hskip with h | h
      · rw [hm] at h; simp at h
      · exact h
    rw [hm] at hsend
    simp only [Option.toList] at hsend
    simp [processSingleMessageMulti, hm, htext, htr htext, hsend, hid]
  · rw [hm] at hsend
    simp only [Option.toList] at hsend
    by_cases htext : msg.text = ""
    · have htt' := htt htext
      subst htt'
      cases hp : m.isPhoto
      · simp [processSingleMessageMulti, hm, htext, hp, hsend, hid]
      · simp [processSingleMessageMulti, hm, htext, hp, hsend, hid]
    · cases hp : m.isPhoto
      · simp [processSingleMessageMulti, hm, htext, hp, htr htext, hsend, hid]
      · simp [processSingleMessageMulti, hm, htext, hp, htr htext, hsend, hid]

lemma processSingleMessage_run (env : Env) (tcid : Int)
    (st : MsgMap) (msg : Message) (tt : String) (destId : Int)
    (hskip : msg.media.isSome = true ∨ msg.text ≠ "")
    (htr : msg.text ≠ "" → env.translate msg.text none = .ok tt)
    (htt : msg.text = "" → tt = "")
    (hsend : env.send tcid tt msg.media.toList (replyLookup st msg.replyToMsgId) = .ok destId)
    (hid : destId ≠ 0) :
    processSingleMessage env tcid st msg =
      (mapSet st msg.id destId,
       (if msg.text = "" then [] else [Call.translateCall msg.text none]) ++
       [Call.sendCall tcid tt msg.media.toList (replyLookup st msg.replyToMsgId)]) := by
  rcases hm : msg.media with _ | m
  · have htext : msg.text ≠ "" := by
      rcases hskip with h | h
      · rw [hm] at h; simp at h
      · exact h
    rw [hm] at hsend
    simp only [Option.toList] at hsend
    simp [processSingleMessage, hm, htext, htr htext, hsend, hid]
  · rw [hm] at hsend
    simp only [Option.toList] at hsend
    by_cases htext : msg.text = ""
    · have htt' := htt htext
      subst htt'
      cases hp : m.isPhoto
      · simp [processSingleMessage, hm, htext, hp, hsend, hid]
      · simp [processSingleMessage, hm, htext, hp, hsend, hid]
    · cases hp : m.isPhoto
      · simp [processSingleMessage, hm, htext, hp, htr htext, hsend, hid]
      · simp [processSingleMessage, hm, htext, hp, htr htext, hsend, hid]

/-- C10: a non-grouped inbound message with neither text nor media is dropped
entirely in both configuration modes: zero gateway calls and an unchanged
correlation store. -/
theorem claim_C10 (env : Env) (gid tcid : Int) (cfg : ChannelConfig)
    (st : MsgMap) (msg : Message)
    (htext : msg.text = "") (hmedia : msg.media = none)
    (_hgrp : messageIsGrouped msg = false) :
    processSingleMessageMulti env gid cfg st msg = (st, [])
    ∧ processSingleMessage env tcid st msg = (st, []) := by
  constructor
  · simp [processSingleMessageMulti, htext, hmedia]
  · simp [processSingleMessage, htext, hmedia]

/-- C10 witness at a concrete empty message. -/
theorem claim_C10_wit :
    processSingleMessageMulti envOkA (-100) cfgNews [] (Message.mk 9 "" none none none) = ([], [])
    ∧ processSingleMessage envOkA (-200) [] (Message.mk 9 "" none none none) = ([], []) :=
  claim_C10 envOkA (-100) (-200) cfgNews [] (Message.mk 9 "" none none none) rfl rfl rfl

/-- C8: prompt lookup is total and an unknown key resolves to the catalog's
default entry rather than an error, and a missing or unreadable prompt file
degrades the catalog to the default-only catalog instead of aborting. -/
theorem claim_C8 (catalog : PromptMap) (key : String)
    (hunknown : catalog.lookup key = none) :
    promptLookup catalog key = defaultEntry catalog
    ∧ loadPrompts none = [("default", "")]
    ∧ loadPrompts (some (.error ())) = [("default", "")]
    ∧ promptLookup (loadPrompts none) key = defaultEntry (loadPrompts none) := by
  refine ⟨?_, rfl, rfl, ?_⟩
  · simp [promptLookup, defaultEntry, hunknown]
  · by_cases h : key = "default"
    · simp [promptLookup, defaultEntry, loadPrompts, List.lookup, h]
    · have hb : (key == "default") = false := by simp [h]
      simp [promptLookup, defaultEntry, loadPrompts, List.lookup, hb]

/-- C8 witness: the key `news` is unknown to the degraded catalog. -/
theorem claim_C8_wit :
    promptLookup [("default", "")] "news" = defaultEntry [("default", "")]
    ∧ loadPrompts none = [("default", "")]
    ∧ loadPrompts (some (.error ())) = [("default", "")]
    ∧ promptLookup (loadPrompts none) "news" = defaultEntry (loadPrompts none) :=
  claim_C8 [("default", "")] "news" (by decide)

/-- C3: an edited message whose source id has a (truthy) correlation entry
yields exactly one fresh translation and exactly one edit against the mapped
destination id, in both modes; an edited message with no entry yields zero
gateway calls. -/
theorem claim_C3 (env : Env) (gid tcid : Int) (cfg : ChannelConfig)
    (st : MsgMap) (msg : Message) (d : Int) (t t2 : String) :
    (mapGet st msg.id = some d → d ≠ 0 → msg.text ≠ "" →
        env.translate msg.text cfg.prompt = .ok t →
        handleEditedMessageMulti env gid cfg st msg
          = [Call.translateCall msg.text cfg.prompt, Call.editCall gid d t])
    ∧ (mapGet st msg.id = none → handleEditedMessageMulti env gid cfg st msg = [])
    ∧ (mapGet st msg.id = some d → d ≠ 0 → msg.text ≠ "" →
        env.translate msg.text none = .ok t2 →
        handleEditedMessage env tcid st msg
          = [Call.translateCall msg.text none, Call.editCall tcid d t2])
    ∧ (mapGet st msg.id = none → handleEditedMessage env tcid st msg = []) := by
  refine ⟨?_, ?_, ?_, ?_⟩
  · intro hmap hd htext htr
    simp [handleEditedMessageMulti, hmap, hd, htext, htr]
  · intro hmap
    simp [handleEditedMessageMulti, hmap]
  · intro hmap hd htext htr
    simp [handleEditedMessage, hmap, hd, htext, htr]
  · intro hmap
    simp [handleEditedMessage, hmap]

/-- C3 witness: store maps 11 to 42; editing message 11 produces one
translation and one edit against 42; editing unmapped message 12 produces
nothing. -/
theorem claim_C3_wit :
    handleEditedMessageMulti envOkA (-100) cfgNews [(11, 42)]
        (Message.mk 11 "edited" none none none)
      = [Call.translateCall "edited" (some "formal tone"), Call.editCall (-100) 42 "edited|ko"]
    ∧ handleEditedMessageMulti envOkA (-100) cfgNews [(11, 42)]
        (Message.mk 12 "edited" none none none) = []
    ∧ handleEditedMessage envOkA (-200) [(11, 42)]
        (Message.mk 11 "edited" none none none)
      = [Call.translateCall "edited" none, Call.editCall (-200) 42 "edited|ko"]
    ∧ handleEditedMessage envOkA (-200) [(11, 42)]
        (Message.mk 12 "edited" none none none) = [] := by
  have h1 := claim_C3 envOkA (-100) (-200) cfgNews [(11, 42)]
    (Message.mk 11 "edited" none none none) 42 "edited|ko" "edited|ko"
  have h2 := claim_C3 envOkA (-100) (-200) cfgNews [(11, 42)]
    (Message.mk 12 "edited" none none none) 42 "edited|ko" "edited|ko"
  exact ⟨h1.1 (by decide) (by decide) (by decide) rfl,
         h2.2.1 (by decide),
         h1.2.2.1 (by decide) (by decide) (by decide) rfl,
         h2.2.2.2 (by decide)⟩

lemma channelEntryToConfig_none (prompts : PromptMap) (e : String)
    (h : entryWellFormed e = false) : channelEntryToConfig prompts e = none := by
  simp only [entryWellFormed] at h
  simp only [channelEntryToConfig, h]
  simp

lemma entryWellFormed_of_some (prompts : PromptMap) (e : String) (c : ChannelConfig)
    (h : channelEntryToConfig prompts e = some c) : entryWellFormed e = true := by
  by_cases hw : entryWellFormed e
  · exact hw
  · rw [channelEntryToConfig_none prompts e (by simpa using hw)] at h
    cases h

/-- C7: with a multi-channel specification present, parsing fails when the
destination group id is absent, fails when no valid triple remains, skips
every triple whose three fields are not all present and non-empty, and the
route list of a successful parse consists exactly of the configs built from
well-formed triples. -/
theorem claim_C7 (env : ParseEnv) (prompts : PromptMap) (s : String)
    (hcfg : env.channelsConfig = some s) (hne : s ≠ "") :
    (jsTruthyStr env.targetGroupIdStr = false →
        ∃ e, parseChannelConfiguration env prompts = .error e)
    ∧ (∀ e ∈ s.splitOn ",", entryWellFormed e = false →
        channelEntryToConfig prompts e = none)
    ∧ (∀ g chs, parseChannelConfiguration env prompts = .ok (.multiChannel g chs) →
        chs ≠ []
        ∧ chs = (s.splitOn ",").filterMap (channelEntryToConfig prompts)
        ∧ ∀ c ∈ chs, ∃ e ∈ s.splitOn ",",
            entryWellFormed e = true ∧ channelEntryToConfig prompts e = some c)
    ∧ (jsTruthyStr env.targetGroupIdStr = true →
        (s.splitOn ",").filterMap (channelEntryToConfig prompts) = [] →
        ∃ e, parseChannelConfiguration env prompts = .error e) := by
  have htru : jsTruthyStr env.channelsConfig = true := by
    simp [jsTruthyStr, hcfg, hne]
  refine ⟨?_, ?_, ?_, ?_⟩
  · intro h
    refine ⟨"TARGET_GROUP_ID is required when using CHANNELS_CONFIG", ?_⟩
    simp [parseChannelConfiguration, htru, h]
  · intro e _ hw
    exact channelEntryToConfig_none prompts e hw
  · intro g chs hok
    by_cases h1 : jsTruthyStr env.targetGroupIdStr = false
    · simp [parseChannelConfiguration, htru, h1] at hok
    · by_cases h2 : ((env.channelsConfig.getD "").splitOn ",").filterMap
          (channelEntryToConfig prompts) = []
      · simp [parseChannelConfiguration, htru, h1, h2] at hok
      · simp [parseChannelConfiguration, htru, h1, h2] at hok
        have hchs : chs = (s.splitOn ",").filterMap (channelEntryToConfig prompts) := by
          rw [hcfg] at hok
          exact hok.2.symm
        refine ⟨?_, hchs, ?_⟩
        · rw [hchs]
          rw [hcfg] at h2
          simpa using h2
        · intro c hc
          rw [hchs] at hc
          obtain ⟨e, he, hsome⟩ := List.mem_filterMap.mp hc
          exact ⟨e, he, entryWellFormed_of_some prompts e c hsome, hsome⟩
  · intro h1 h2
    refine ⟨"No valid channels configured in CHANNELS_CONFIG", ?_⟩
    have hs : jsTruthyStr (some s) = true := by simp [jsTruthyStr, hne]
    simp [parseChannelConfiguration, h1, hcfg, h2, hs]

/-- C7 witness: one valid triple among malformed ones; a missing destination
group id and an all-invalid list each abort. -/
theorem claim_C7_wit :
    ((jsTruthyStr (some "")) = false →
      ∃ e, parseChannelConfiguration
        (ParseEnv.mk (some "100:5:news,bad,:,x::y") (some "") none none) [("news", "formal tone")] = .error e)
    ∧ (∀ e ∈ ("100:5:news,bad,:,x::y".splitOn ","), entryWellFormed e = false →
        channelEntryToConfig [("news", "formal tone")] e = none)
    ∧ (∀ g chs, parseChannelConfiguration
          (ParseEnv.mk (some "100:5:news,bad,:,x::y") (some "") none none) [("news", "formal tone")]
          = .ok (.multiChannel g chs) →
        chs ≠ []
        ∧ chs = ("100:5:news,bad,:,x::y".splitOn ",").filterMap
            (channelEntryToConfig [("news", "formal tone")])
        ∧ ∀ c ∈ chs, ∃ e ∈ "100:5:news,bad,:,x::y".splitOn ",",
            entryWellFormed e = true
            ∧ channelEntryToConfig [("news", "formal tone")] e = some c)
    ∧ (jsTruthyStr (some "") = true →
        ("100:5:news,bad,:,x::y".splitOn ",").filterMap
          (channelEntryToConfig [("news", "formal tone")]) = [] →
        ∃ e, parseChannelConfiguration
          (ParseEnv.mk (some "100:5:news,bad,:,x::y") (some "") none none) [("news", "formal tone")] = .error e) :=
  claim_C7 (ParseEnv.mk (some "100:5:news,bad,:,x::y") (some "") none none)
    [("news", "formal tone")] "100:5:news,bad,:,x::y" rfl (by decide)

/-- C1: a new message with text, no group id and no reply reference yields —
in both configuration modes — exactly one translation of its text with the
route's resolved instruction, exactly one send to the route's destination,
and exactly one new correlation entry from its source id to the id the send
returned. -/
theorem claim_C1 (env : Env) (gid tcid : Int) (cfg : ChannelConfig)
    (st : MsgMap) (msg : Message) (instr tt tt2 : String) (destId destId2 : Int)
    (htext : msg.text ≠ "") (_hgrp : messageIsGrouped msg = false)
    (hreply : msg.replyToMsgId = none)
    (hprompt : cfg.prompt = some instr)
    (htr : env.translate msg.text (some instr) = .ok tt)
    (hsend : env.send gid tt msg.media.toList cfg.targetTopicId = .ok destId)
    (hid : destId ≠ 0)
    (htr2 : env.translate msg.text none = .ok tt2)
    (hsend2 : env.send tcid tt2 msg.media.toList none = .ok destId2)
    (hid2 : destId2 ≠ 0) :
    processSingleMessageMulti env gid cfg st msg
      = (mapSet st msg.id destId,
         [Call.translateCall msg.text (some instr),
          Call.sendCall gid tt msg.media.toList cfg.targetTopicId])
    ∧ processSingleMessage env tcid st msg
      = (mapSet st msg.id destId2,
         [Call.translateCall msg.text none,
          Call.sendCall tcid tt2 msg.media.toList none]) := by
  have hrl : replyLookup st msg.replyToMsgId = none := by simp [replyLookup, hreply]
  have hor : jsOrOpt (replyLookup st msg.replyToMsgId) cfg.targetTopicId = cfg.targetTopicId := by
    simp [hrl, jsOrOpt, jsTruthyInt]
  constructor
  · have h := processSingleMessageMulti_run env gid cfg st msg tt destId
      (Or.inr htext) (fun _ => by rw [hprompt]; exact htr) (fun h => absurd h htext)
      (by rw [hor]; exact hsend) hid
    rw [h, hor, hprompt]
    simp [htext]
  · have h := processSingleMessage_run env tcid st msg tt2 destId2
      (Or.inr htext) (fun _ => htr2) (fun h => absurd h htext)
      (by rw [hrl]; exact hsend2) hid2
    rw [h, hrl]
    simp [htext]

/-- C1 witness: the spec's own example — route `100:5:news`, inbound text
from source 100, translation called with the `news` instruction, one post to
topic 5, one new correlation entry `11 ↦ 777`. -/
theorem claim_C1_wit :
    processSingleMessageMulti envOkA (-100) cfgNews [] msgText1
      = ([(11, 777)],
         [Call.translateCall "Breaking: markets up" (some "formal tone"),
          Call.sendCall (-100) "Breaking: markets up|ko" [] (some 5)])
    ∧ processSingleMessage envOkA (-200) [] msgText1
      = ([(11, 777)],
         [Call.translateCall "Breaking: markets up" none,
          Call.sendCall (-200) "Breaking: markets up|ko" [] none]) :=
  claim_C1 envOkA (-100) (-200) cfgNews [] msgText1 "formal tone"
    "Breaking: markets up|ko" "Breaking: markets up|ko" 777 777
    (by decide) rfl rfl rfl rfl rfl (by decide) rfl rfl (by decide)

/-- C4: for a message carrying a (truthy) reply reference, a recorded
correlation entry makes the post's reply-to the mapped destination id, in
both modes; with no entry the post is still produced — reply-to is the
route's plain topic destination in multi-channel mode and absent in legacy
mode — and the unit still records its own new correlation entry. -/
theorem claim_C4 (env : Env) (gid tcid : Int) (cfg : ChannelConfig)
    (st : MsgMap) (msg : Message) (r d : Int) (tt : String) (destId : Int)
    (hreply : msg.replyToMsgId = some r) (hr : r ≠ 0) (htext : msg.text ≠ "") :
    (mapGet st r = some d → d ≠ 0 →
        env.translate msg.text cfg.prompt = .ok tt →
        env.send gid tt msg.media.toList (some d) = .ok destId → destId ≠ 0 →
        processSingleMessageMulti env gid cfg st msg
          = (mapSet st msg.id destId,
             [Call.translateCall msg.text cfg.prompt,
              Call.sendCall gid tt msg.media.toList (some d)]))
    ∧ (mapGet st r = none →
        env.translate msg.text cfg.prompt = .ok tt →
        env.send gid tt msg.media.toList cfg.targetTopicId = .ok destId → destId ≠ 0 →
        processSingleMessageMulti env gid cfg st msg
          = (mapSet st msg.id destId,
             [Call.translateCall msg.text cfg.prompt,
              Call.sendCall gid tt msg.media.toList cfg.targetTopicId]))
    ∧ (mapGet st r = some d → d ≠ 0 →
        env.translate msg.text none = .ok tt →
        env.send tcid tt msg.media.toList (some d) = .ok destId → destId ≠ 0 →
        processSingleMessage env tcid st msg
          = (mapSet st msg.id destId,
             [Call.translateCall msg.text none,
              Call.sendCall tcid tt msg.media.toList (some d)]))
    ∧ (mapGet st r = none →
        env.translate msg.text none = .ok tt →
        env.send tcid tt msg.media.toList none = .ok destId → destId ≠ 0 →
        processSingleMessage env tcid st msg
          = (mapSet st msg.id destId,
             [Call.translateCall msg.text none,
              Call.sendCall tcid tt msg.media.toList none])) := by
  refine ⟨?_, ?_, ?_, ?_⟩
  · intro hmap hd htr hsend hid
    have hrl : replyLookup st msg.replyToMsgId = some d := by
      simp [replyLookup, hreply, hr, hmap]
    have hor : jsOrOpt (replyLookup st msg.replyToMsgId) cfg.targetTopicId = some d := by
      simp [hrl, jsOrOpt, jsTruthyInt, hd]
    have h := processSingleMessageMulti_run env gid cfg st msg tt destId
      (Or.inr htext) (fun _ => htr) (fun h => absurd h htext) (by rw [hor]; exact hsend) hid
    rw [h, hor]
    simp [htext]
  · intro hmap htr hsend hid
    have hrl : replyLookup st msg.replyToMsgId = none := by
      simp [replyLookup, hreply, hr, hmap]
    have hor : jsOrOpt (replyLookup st msg.replyToMsgId) cfg.targetTopicId = cfg.targetTopicId := by
      simp [hrl, jsOrOpt, jsTruthyInt]
    have h := processSingleMessageMulti_run env gid cfg st msg tt destId
      (Or.inr htext) (fun _ => htr) (fun h => absurd h htext) (by rw [hor]; exact hsend) hid
    rw [h, hor]
    simp [htext]
  · intro hmap hd htr hsend hid
    have hrl : replyLookup st msg.replyToMsgId = some d := by
      simp [replyLookup, hreply, hr, hmap]
    have h := processSingleMessage_run env tcid st msg tt destId
      (Or.inr htext) (fun _ => htr) (fun h => absurd h htext) (by rw [hrl]; exact hsend) hid
    rw [h, hrl]
    simp [htext]
  · intro hmap htr hsend hid
    have hrl : replyLookup st msg.replyToMsgId = none := by
      simp [replyLookup, hreply, hr, hmap]
    have h := processSingleMessage_run env tcid st msg tt destId
      (Or.inr htext) (fun _ => htr) (fun h => absurd h htext) (by rw [hrl]; exact hsend) hid
    rw [h, hrl]
    simp [htext]

/-- C4 witness: with `3 ↦ 42` recorded, a reply to 3 posts with reply-to 42
in both modes; with an empty store, the post still goes out — to the plain
topic in multi-channel mode, with no reply-to in legacy mode. -/
theorem claim_C4_wit :
    processSingleMessageMulti envOkA (-100) cfgNews [(3, 42)]
        (Message.mk 21 "hi" none none (some 3))
      = ([(21, 777), (3, 42)],
         [Call.translateCall "hi" (some "formal tone"),
          Call.sendCall (-100) "hi|ko" [] (some 42)])
    ∧ processSingleMessage envOkA (-200) [(3, 42)]
        (Message.mk 21 "hi" none none (some 3))
      = ([(21, 777), (3, 42)],
         [Call.translateCall "hi" none,
          Call.sendCall (-200) "hi|ko" [] (some 42)])
    ∧ processSingleMessageMulti envOkA (-100) cfgNews []
        (Message.mk 21 "hi" none none (some 3))
      = ([(21, 777)],
         [Call.translateCall "hi" (some "formal tone"),
          Call.sendCall (-100) "hi|ko" [] (some 5)])
    ∧ processSingleMessage envOkA (-200) []
        (Message.mk 21 "hi" none none (some 3))
      = ([(21, 777)],
         [Call.translateCall "hi" none,
          Call.sendCall (-200) "hi|ko" [] none]) := by
  have h1 := claim_C4 envOkA (-100) (-200) cfgNews [(3, 42)]
    (Message.mk 21 "hi" none none (some 3)) 3 42 "hi|ko" 777 rfl (by decide) (by decide)
  have h2 := claim_C4 envOkA (-100) (-200) cfgNews []
    (Message.mk 21 "hi" none none (some 3)) 3 42 "hi|ko" 777 rfl (by decide) (by decide)
  exact ⟨h1.1 (by decide) (by decide) rfl rfl (by decide),
         h1.2.2.1 (by decide) (by decide) rfl rfl (by decide),
         h2.2.1 (by decide) rfl rfl (by decide),
         h2.2.2.2 (by decide) rfl rfl (by decide)⟩

/-- C5 counterexample: a successfully posted aggregated group (exactly one
send issued) leaves the correlation store empty — no mapping for any of the
group's source ids is recorded. -/
theorem claim_C5_ce :
    (processGroupedMessagesMulti envOkA (-100) cfgNews [] [gMsg 1 "hello", gMsg 2 ""]).1 = []
    ∧ sendCount (processGroupedMessagesMulti envOkA (-100) cfgNews [] [gMsg 1 "hello", gMsg 2 ""]).2 = 1
    ∧ mapGet (processGroupedMessagesMulti envOkA (-100) cfgNews [] [gMsg 1 "hello", gMsg 2 ""]).1 1 = none
    ∧ mapGet (processGroupedMessagesMulti envOkA (-100) cfgNews [] [gMsg 1 "hello", gMsg 2 ""]).1 2 = none := by
  refine ⟨rfl, rfl, rfl, rfl⟩

/-- C5 as amended: after a successful single-message post the store maps that
message's source id to the returned destination id, but a group flush leaves
the correlation store unchanged — the aggregated post records no entry. -/
theorem claim_C5 (env : Env) (gid : Int) (cfg : ChannelConfig)
    (st : MsgMap) (msg : Message) (msgs : List Message) (tt : String) (destId : Int)
    (hskip : msg.media.isSome = true ∨ msg.text ≠ "")
    (htr : msg.text ≠ "" → env.translate msg.text cfg.prompt = .ok tt)
    (htt : msg.text = "" → tt = "")
    (hsend : env.send gid tt msg.media.toList
        (jsOrOpt (replyLookup st msg.replyToMsgId) cfg.targetTopicId) = .ok destId)
    (hid : destId ≠ 0) :
    (processSingleMessageMulti env gid cfg st msg).1 = mapSet st msg.id destId
    ∧ mapGet (processSingleMessageMulti env gid cfg st msg).1 msg.id = some destId
    ∧ (processGroupedMessagesMulti env gid cfg st msgs).1 = st := by
  have h := processSingleMessageMulti_run env gid cfg st msg tt destId hskip htr htt hsend hid
  refine ⟨by rw [h], ?_, rfl⟩
  rw [h]
  simp [mapGet, mapSet, List.lookup]

/-- C5 amended-claim witness at a concrete text message and group. -/
theorem claim_C5_wit :
    (processSingleMessageMulti envOkA (-100) cfgNews [] msgText1).1 = mapSet [] 11 777
    ∧ mapGet (processSingleMessageMulti envOkA (-100) cfgNews [] msgText1).1 11 = some 777
    ∧ (processGroupedMessagesMulti envOkA (-100) cfgNews [] [gMsg 1 "hello", gMsg 2 ""]).1 = [] :=
  claim_C5 envOkA (-100) cfgNews [] msgText1 [gMsg 1 "hello", gMsg 2 ""]
    "Breaking: markets up|ko" 777
    (Or.inr (by decide)) (fun _ => rfl) (fun h => absurd h (by decide)) rfl (by decide)

/-- C9: a failing translation gateway, or a failing messaging gateway, leaves
the correlation store exactly as it was in both modes (the handler catches
the error and records nothing), and a group flush never writes the store at
all. -/
theorem claim_C9 (env : Env) (gid tcid : Int) (cfg : ChannelConfig)
    (st : MsgMap) (msg : Message) (msgs : List Message) :
    ((∀ a b, env.translate a b = .error ()) → msg.text ≠ "" →
        (processSingleMessageMulti env gid cfg st msg).1 = st
        ∧ (processSingleMessage env tcid st msg).1 = st)
    ∧ ((∀ a b c d, env.send a b c d = .error ()) →
        (processSingleMessageMulti env gid cfg st msg).1 = st
        ∧ (processSingleMessage env tcid st msg).1 = st)
    ∧ (processGroupedMessagesMulti env gid cfg st msgs).1 = st := by
  refine ⟨?_, ?_, rfl⟩
  · intro htr htext
    constructor
    · simp [processSingleMessageMulti, htext, htr]
    · simp [processSingleMessage, htext, htr]
  · intro hsend
    constructor
    · rcases hm : msg.media with _ | m
      · by_cases htext : msg.text = ""
        · simp [processSingleMessageMulti, htext, hm]
        · rcases htr : env.translate msg.text cfg.prompt with e | t
          · simp [processSingleMessageMulti, htext, hm, htr]
          · simp [processSingleMessageMulti, htext, hm, htr, hsend]
      · by_cases htext : msg.text = ""
        · cases hp : m.isPhoto
          · simp [processSingleMessageMulti, htext, hm, hp, hsend]
          · simp [processSingleMessageMulti, htext, hm, hp, hsend]
        · rcases htr : env.translate msg.text cfg.prompt with e | t
          · simp [processSingleMessageMulti, htext, hm, htr]
          · cases hp : m.isPhoto
            · simp [processSingleMessageMulti, htext, hm, htr, hp, hsend]
            · simp [processSingleMessageMulti, htext, hm, htr, hp, hsend]
    · rcases hm : msg.media with _ | m
      · by_cases htext : msg.text = ""
        · simp [processSingleMessage, htext, hm]
        · rcases htr : env.translate msg.text none with e | t
          · simp [processSingleMessage, htext, hm, htr]
          · simp [processSingleMessage, htext, hm, htr, hsend]
      · by_cases htext : msg.text = ""
        · cases hp : m.isPhoto
          · simp [processSingleMessage, htext, hm, hp, hsend]
          · simp [processSingleMessage, htext, hm, hp, hsend]
        · rcases htr : env.translate msg.text none with e | t
          · simp [processSingleMessage, htext, hm, htr]
          · cases hp : m.isPhoto
            · simp [processSingleMessage, htext, hm, htr, hp, hsend]
            · simp [processSingleMessage, htext, hm, htr, hp, hsend]

/-- C9 witness: a failing translator and a failing sender each leave a
concrete store untouched, and a concrete group flush does too. -/
theorem claim_C9_wit :
    ((processSingleMessageMulti envFailT (-100) cfgNews [(3, 42)] msgText1).1 = [(3, 42)]
      ∧ (processSingleMessage envFailT (-200) [(3, 42)] msgText1).1 = [(3, 42)])
    ∧ ((processSingleMessageMulti envFailS (-100) cfgNews [(3, 42)] msgText1).1 = [(3, 42)]
      ∧ (processSingleMessage envFailS (-200) [(3, 42)] msgText1).1 = [(3, 42)])
    ∧ (processGroupedMessagesMulti envFailT (-100) cfgNews [(3, 42)] [gMsg 1 "hello"]).1 = [(3, 42)] :=
  ⟨(claim_C9 envFailT (-100) (-200) cfgNews [(3, 42)] msgText1 [gMsg 1 "hello"]).1
      (fun _ _ => rfl) (by decide),
   (claim_C9 envFailS (-100) (-200) cfgNews [(3, 42)] msgText1 [gMsg 1 "hello"]).2.1
      (fun _ _ _ _ => rfl),
   (claim_C9 envFailT (-100) (-200) cfgNews [(3, 42)] msgText1 [gMsg 1 "hello"]).2.2⟩

/-- C6 at its failing input: members 1 and 2 arrive 500 ms apart, the timer
fires at 1500, and member 3 arrives at 1550 while the flush is still in
flight (delete at 1600).  The arrival is pushed onto the same accumulated
array and re-arms the timer, so the second flush re-posts members 1 and 2:
the same accumulated members are processed twice, not exactly once. -/
theorem claim_C6 :
    (runAgg ctxG [(0, gMsg 1 ""), (500, gMsg 2 ""), (1550, gMsg 3 "")]).calls
      = [Call.sendCall (-100) "" [Media.mk 1 true, Media.mk 2 true] (some 5),
         Call.sendCall (-100) "" [Media.mk 1 true, Media.mk 2 true, Media.mk 3 true] (some 5)]
    ∧ sendCount (runAgg ctxG [(0, gMsg 1 ""), (500, gMsg 2 ""), (1550, gMsg 3 "")]).calls = 2 := by
  refine ⟨rfl, rfl⟩

lemma arrive_fresh (C : AggCtx) (t : Nat) (m : Message) :
    arrive C t m initAgg = accumState C 0 t [m] := rfl

lemma arrive_accum (C : AggCtx) (k tl : Nat) (acc : List Message) (t : Nat) (m : Message) :
    arrive C t m (accumState C k tl acc) = accumState C (k + 1) t (acc ++ [m]) := by
  simp [arrive, accumState, List.filter]

lemma runInternalUntil_accum (C : AggCtx) (k tl : Nat) (acc : List Message) (t : Nat)
    (h : t < tl + C.window) :
    runInternalUntil C t (accumState C k tl acc) = accumState C k tl acc := by
  have hn : ¬(tl + C.window ≤ t) := by omega
  simp [runInternalUntil, internalFuel, accumState, runInternal, nextInternal,
    minTimer?, minDel?, IEv.time, hn]

lemma foldl_accum (C : AggCtx) :
    ∀ (evs : List (Nat × Message)) (k tl : Nat) (acc : List Message),
      gapsOk C tl evs →
      List.foldl (stepAgg C) (accumState C k tl acc) evs
        = accumState C (k + evs.length) (lastTime tl evs) (acc ++ evs.map Prod.snd) := by
  intro evs
  induction evs with
  | nil => intro k tl acc _; simp [lastTime]
  | cons e rest ih =>
    intro k tl acc h
    obtain ⟨t, m⟩ := e
    obtain ⟨h1, h2⟩ := h
    rw [List.foldl_cons]
    have hs : stepAgg C (accumState C k tl acc) (t, m) = accumState C (k + 1) t (acc ++ [m]) := by
      rw [stepAgg, runInternalUntil_accum C k tl acc t h1, arrive_accum]
    rw [hs, ih (k + 1) t (acc ++ [m]) h2]
    have h3 : (acc ++ [m]) ++ rest.map Prod.snd = acc ++ ((t, m) :: rest).map Prod.snd := by simp
    have h4 : k + 1 + rest.length = k + ((t, m) :: rest).length := by
      simp only [List.length_cons]
      omega
    have h5 : lastTime tl ((t, m) :: rest) = lastTime t rest := rfl
    rw [h5, ← h3, ← h4]

lemma foldl_clean (C : AggCtx) (t1 : Nat) (m1 : Message) (rest : List (Nat × Message))
    (h : gapsOk C t1 rest) :
    List.foldl (stepAgg C) initAgg ((t1, m1) :: rest)
      = accumState C rest.length (lastTime t1 rest) (m1 :: rest.map Prod.snd) := by
  rw [List.foldl_cons]
  have hbase : stepAgg C initAgg (t1, m1) = accumState C 0 t1 [m1] := by
    rw [stepAgg]
    have : runInternalUntil C t1 initAgg = initAgg := rfl
    rw [this, arrive_fresh]
  rw [hbase, foldl_accum C rest 0 t1 [m1] h]
  simp

lemma drain_one_timer (C : AggCtx) (H : List (List Message))
    (e : Option (Nat × Option Nat)) (k T a ntid : Nat) (cs : List Call) :
    drainAll C { heap := H, entry := e, timers := [(k, T, a)], dels := [],
                 nextTimerId := ntid, calls := cs }
      = { heap := H, entry := none, timers := [], dels := [], nextTimerId := ntid,
          calls := cs ++ groupFlushCalls C.env C.targetGroupId C.cfg (H.getD a []) } := by
  simp [drainAll, internalFuel, runInternal, nextInternal, minTimer?, minDel?,
    execInternal, IEv.time, List.filter, List.erase]

lemma agg_late_far (C : AggCtx) (k tl : Nat) (acc : List Message) (tN : Nat) (mN : Message)
    (h1 : tl + C.window ≤ tN) (h2 : tl + C.window + C.flushDur ≤ tN) :
    stepAgg C (accumState C k tl acc) (tN, mN)
      = { heap := [acc, [mN]], entry := some (1, some (k + 1)),
          timers := [(k + 1, tN + C.window, 1)], dels := [],
          nextTimerId := k + 2,
          calls := groupFlushCalls C.env C.targetGroupId C.cfg acc } := by
  rw [stepAgg]
  have hrun : runInternalUntil C tN (accumState C k tl acc)
      = { heap := [acc], entry := none, timers := [], dels := [],
          nextTimerId := k + 1,
          calls := groupFlushCalls C.env C.targetGroupId C.cfg acc } := by
    simp [runInternalUntil, internalFuel, accumState, runInternal, nextInternal,
      minTimer?, minDel?, IEv.time, execInternal, List.filter, List.erase, h1, h2]
  rw [hrun]
  simp [arrive]

lemma agg_late_near (C : AggCtx) (k tl : Nat) (acc : List Message) (tN : Nat) (mN : Message)
    (h1 : tl + C.window ≤ tN) (h2 : tN < tl + C.window + C.flushDur) :
    stepAgg C (accumState C k tl acc) (tN, mN)
      = { heap := [acc ++ [mN]], entry := some (0, some (k + 1)),
          timers := [(k + 1, tN + C.window, 0)], dels := [tl + C.window + C.flushDur],
          nextTimerId := k + 2,
          calls := groupFlushCalls C.env C.targetGroupId C.cfg acc } := by
  rw [stepAgg]
  have hn : ¬(tl + C.window + C.flushDur ≤ tN) := by omega
  have hrun : runInternalUntil C tN (accumState C k tl acc)
      = { heap := [acc], entry := some (0, some k), timers := [],
          dels := [tl + C.window + C.flushDur],
          nextTimerId := k + 1,
          calls := groupFlushCalls C.env C.targetGroupId C.cfg acc } := by
    simp [runInternalUntil, internalFuel, accumState, runInternal, nextInternal,
      minTimer?, minDel?, IEv.time, execInternal, List.filter, List.erase, h1, hn]
  rw [hrun]
  simp [arrive, List.filter]

lemma drain_timer_del (C : AggCtx) (H : List (List Message))
    (e : Option (Nat × Option Nat)) (k T a ntid : Nat) (cs : List Call) (d : Nat) :
    drainAll C { heap := H, entry := e, timers := [(k, T, a)], dels := [d],
                 nextTimerId := ntid, calls := cs }
      = { heap := H, entry := none, timers := [], dels := [], nextTimerId := ntid,
          calls := cs ++ groupFlushCalls C.env C.targetGroupId C.cfg (H.getD a []) } := by
  by_cases hc : d ≤ T
  · simp [drainAll, internalFuel, runInternal, nextInternal, minTimer?, minDel?,
      execInternal, IEv.time, List.filter, List.erase, hc]
  · by_cases hc2 : T + C.flushDur < d
    · have hne : (d == T + C.flushDur) = false := by
        simp only [beq_eq_false_iff_ne, ne_eq]
        omega
      simp [drainAll, internalFuel, runInternal, nextInternal, minTimer?, minDel?,
        execInternal, IEv.time, List.filter, List.erase, hc, hc2, hne]
    · simp [drainAll, internalFuel, runInternal, nextInternal, minTimer?, minDel?,
        execInternal, IEv.time, List.filter, List.erase, hc, hc2]

lemma sendCount_append (a b : List Call) :
    sendCount (a ++ b) = sendCount a + sendCount b := by
  simp [sendCount, List.filter_append]

lemma groupFlushCalls_struct (env : Env) (g : Int) (cfg : ChannelConfig)
    (msgs : List Message) (h : ∀ a b, ∃ r, env.translate a b = .ok r) :
    ∃ t, (groupFlushCalls env g cfg msgs).filter Call.isSend
        = [Call.sendCall g t (msgs.filterMap Message.media) cfg.targetTopicId]
      ∧ (groupText msgs = "" → t = "")
      ∧ (groupText msgs ≠ "" → env.translate (groupText msgs) cfg.prompt = .ok t) := by
  by_cases hx : groupText msgs = ""
  · refine ⟨"", ?_, fun _ => rfl, fun hc => absurd hx hc⟩
    simp [groupFlushCalls, hx, Call.isSend]
  · obtain ⟨r, hr⟩ := h (groupText msgs) cfg.prompt
    refine ⟨r, ?_, fun hc => absurd hc hx, fun _ => hr⟩
    simp [groupFlushCalls, hx, hr, Call.isSend]

lemma sendCount_flush (env : Env) (g : Int) (cfg : ChannelConfig)
    (msgs : List Message) (h : ∀ a b, ∃ r, env.translate a b = .ok r) :
    sendCount (groupFlushCalls env g cfg msgs) = 1 := by
  obtain ⟨t, ht, _⟩ := groupFlushCalls_struct env g cfg msgs h
  simp [sendCount, ht]

/-- C2: arrivals of one group all spaced strictly inside the quiescence
window yield exactly the one flush over all members in arrival order —
whose only send carries the union of the members' media in arrival order
and the (translated) first non-empty member text — while a last arrival at
least a full window after the previous one yields exactly two posts. -/
theorem claim_C2 (C : AggCtx) (t1 : Nat) (m1 : Message)
    (rest : List (Nat × Message)) (tN : Nat) (mN : Message)
    (h : gapsOk C t1 rest) :
    ((runAgg C ((t1, m1) :: rest)).calls
        = groupFlushCalls C.env C.targetGroupId C.cfg (m1 :: rest.map Prod.snd))
    ∧ ((∀ a b, ∃ r, C.env.translate a b = .ok r) →
        ∃ t, ((runAgg C ((t1, m1) :: rest)).calls).filter Call.isSend
            = [Call.sendCall C.targetGroupId t
                 ((m1 :: rest.map Prod.snd).filterMap Message.media)
                 C.cfg.targetTopicId]
          ∧ (groupText (m1 :: rest.map Prod.snd) = "" → t = "")
          ∧ (groupText (m1 :: rest.map Prod.snd) ≠ "" →
              C.env.translate (groupText (m1 :: rest.map Prod.snd)) C.cfg.prompt = .ok t))
    ∧ (lastTime t1 rest + C.window ≤ tN →
        (∀ a b, ∃ r, C.env.translate a b = .ok r) →
        sendCount (runAgg C (((t1, m1) :: rest) ++ [(tN, mN)])).calls = 2) := by
  have hclean : (runAgg C ((t1, m1) :: rest)).calls
      = groupFlushCalls C.env C.targetGroupId C.cfg (m1 :: rest.map Prod.snd) := by
    rw [runAgg, foldl_clean C t1 m1 rest h]
    rw [show accumState C rest.length (lastTime t1 rest) (m1 :: rest.map Prod.snd)
        = { heap := [m1 :: rest.map Prod.snd],
            entry := some (0, some rest.length),
            timers := [(rest.length, lastTime t1 rest + C.window, 0)],
            dels := [], nextTimerId := rest.length + 1, calls := [] } from rfl]
    rw [drain_one_timer]
    simp
  refine ⟨hclean, ?_, ?_⟩
  · intro htr
    rw [hclean]
    exact groupFlushCalls_struct C.env C.targetGroupId C.cfg (m1 :: rest.map Prod.snd) htr
  · intro hlate htr
    rw [runAgg, List.foldl_append, foldl_clean C t1 m1 rest h]
    by_cases hd : lastTime t1 rest + C.window + C.flushDur ≤ tN
    · rw [show List.foldl (stepAgg C)
            (accumState C rest.length (lastTime t1 rest) (m1 :: rest.map Prod.snd)) [(tN, mN)]
          = stepAgg C (accumState C rest.length (lastTime t1 rest) (m1 :: rest.map Prod.snd)) (tN, mN)
          from rfl]
      rw [agg_late_far C rest.length (lastTime t1 rest) (m1 :: rest.map Prod.snd) tN mN hlate hd]
      rw [drain_one_timer]
      simp [sendCount_append,
        sendCount_flush C.env C.targetGroupId C.cfg (m1 :: rest.map Prod.snd) htr,
        sendCount_flush C.env C.targetGroupId C.cfg [mN] htr]
    · have hd' : tN < lastTime t1 rest + C.window + C.flushDur := by omega
      rw [show List.foldl (stepAgg C)
            (accumState C rest.length (lastTime t1 rest) (m1 :: rest.map Prod.snd)) [(tN, mN)]
          = stepAgg C (accumState C rest.length (lastTime t1 rest) (m1 :: rest.map Prod.snd)) (tN, mN)
          from rfl]
      rw [agg_late_near C rest.length (lastTime t1 rest) (m1 :: rest.map Prod.snd) tN mN hlate hd']
      rw [drain_timer_del]
      have hone := sendCount_flush C.env C.targetGroupId C.cfg
        (m1 :: (rest.map Prod.snd ++ [mN])) htr
      simp [sendCount_append,
        sendCount_flush C.env C.targetGroupId C.cfg (m1 :: rest.map Prod.snd) htr, hone]

/-- C2 witness: two members 200 ms apart produce the one combined flush; a
third member arriving 1200 ms after the second produces a second post. -/
theorem claim_C2_wit :
    ((runAgg ctxG [(0, gMsg 1 "hello"), (200, gMsg 2 "")]).calls
        = groupFlushCalls ctxG.env ctxG.targetGroupId ctxG.cfg
            ((gMsg 1 "hello") :: [(200, gMsg 2 "")].map Prod.snd))
    ∧ sendCount (runAgg ctxG (((0, gMsg 1 "hello")
        :: [(200, gMsg 2 "")]) ++ [(1400, gMsg 3 "")])).calls = 2 := by
  have hg : gapsOk ctxG 0 [(200, gMsg 2 "")] := ⟨by decide, trivial⟩
  have h := claim_C2 ctxG 0 (gMsg 1 "hello") [(200, gMsg 2 "")] 1400 (gMsg 3 "") hg
  have htr : ∀ a b, ∃ r, ctxG.env.translate a b = .ok r := fun a _ => ⟨a ++ "|ko", rfl⟩
  exact ⟨h.1, h.2.2 (by decide) htr⟩
